import Mathlib

/-!
Verification of the Building 37 analysis pipeline (three near-duplicate
Python scripts under `src/Data Analysis/`).  The data model and the metric
operations are embedded shallowly: pandas column arithmetic becomes list
arithmetic over `Nat`/`ℚ`, the scipy Pearson call becomes the usual
real-valued formula, and the two unguarded divisions of
`analyze_occupancy_patterns` are made explicit through an `Option`-valued
variant.  Machine floats are modelled by exact rationals/reals; pandas `NaN`
results (mean of an empty selection, undefined correlation) are modelled by
`none`.
-/

namespace Building37

/-- One row of the badge-swipe table: an employee's floor and the nine
monthly swipe counts (Jan..Sep), as loaded by `load_data`.  Swipe counts
are non-negative integers. -/
structure OccupancyRecord where
  floor : Nat
  swipes : Fin 9 → Nat

/-- Embeds `badge_data[months].sum(axis=1)` for one row: the employee's total
9-month swipe count. -/
def totalSwipes (r : OccupancyRecord) : Nat :=
  ∑ m : Fin 9, r.swipes m

/-- Embeds `badge_data[months].sum()` at one month: total swipes over all
employees (`analyze_occupancy_patterns`, line 73). -/
def monthlySwipes (b : List OccupancyRecord) (m : Fin 9) : Nat :=
  (b.map (fun r => r.swipes m)).sum

/-- Tier mask `total_swipes < 30` (line 115). -/
def veryLowUtil (t : Nat) : Prop := t < 30

/-- Tier mask `(total_swipes >= 30) & (total_swipes < 90)` (line 116). -/
def lowUtil (t : Nat) : Prop := 30 ≤ t ∧ t < 90

/-- Tier mask `(total_swipes >= 90) & (total_swipes < 140)` (line 117). -/
def mediumUtil (t : Nat) : Prop := 90 ≤ t ∧ t < 140

/-- Tier mask `total_swipes >= 140` (line 118). -/
def highUtil (t : Nat) : Prop := 140 ≤ t

instance : DecidablePred veryLowUtil := fun t => inferInstanceAs (Decidable (t < 30))

instance : DecidablePred lowUtil := fun t => inferInstanceAs (Decidable (30 ≤ t ∧ t < 90))

instance : DecidablePred mediumUtil := fun t => inferInstanceAs (Decidable (90 ≤ t ∧ t < 140))

instance : DecidablePred highUtil := fun t => inferInstanceAs (Decidable (140 ≤ t))

/-- Embeds `building_info['working_days_per_month']`. -/
def workingDaysPerMonth : Nat := 20

/-- Embeds `avg_days = swipes / num_employees` (line 90), per month. -/
def avgDaysPerMonth (b : List OccupancyRecord) (m : Fin 9) : ℚ :=
  (monthlySwipes b m : ℚ) / (b.length : ℚ)

/-- Embeds `rate = (avg_days / working_days) * 100` (line 91), per month. -/
def attendanceRatePerMonth (b : List OccupancyRecord) (m : Fin 9) : ℚ :=
  avgDaysPerMonth b m / (workingDaysPerMonth : ℚ) * 100

/-- Embeds `very_low_util.sum() + low_util.sum()`: the `low_utilizers` entry of the
`analyze_occupancy_patterns` result dict (line 135). -/
def lowUtilizers (b : List OccupancyRecord) : Nat :=
  (b.countP fun r => decide (veryLowUtil (totalSwipes r))) +
    (b.countP fun r => decide (lowUtil (totalSwipes r)))

/-- Embeds `full_remote + mostly_remote` of `advanced_metrics_analysis`
(lines 471-475): `(total_swipes < 20).sum() + ((total_swipes >= 20) &
(total_swipes < 90)).sum()`. -/
def remoteEmployees (b : List OccupancyRecord) : Nat :=
  (b.countP fun r => decide (totalSwipes r < 20)) +
    (b.countP fun r => decide (20 ≤ totalSwipes r ∧ totalSwipes r < 90))

/-- One row of the conference-booking table after loading: rows with
unparsable dates were dropped by `load_data`, `hours` is the signed duration
`(Finish - Start)` in hours for a booking whose `Start`/`Finish` time
strings parse (time-string parsing itself is an external collaborator). -/
structure Booking where
  room : String
  year : Nat
  attendees : Nat
  attendanceType : String
  hours : ℚ
deriving DecidableEq

/-- First clamp assignment `df.loc[df['Hours'] <= 0, 'Hours'] = 15`
(ge_building_analysis, line 320; identically v2 line 299). -/
def clampLow (d : ℚ) : ℚ := if d ≤ 0 then 15 else d

/-- First clamp assignment of the v1 script,
`df.loc[df['Hours'] < 0, 'Hours'] = 15` (v1 line 180): only strictly
negative durations are replaced. -/
def clampLowV1 (d : ℚ) : ℚ := if d < 0 then 15 else d

/-- Second clamp assignment `df.loc[df['Hours'] > 20, 'Hours'] = 15`
(line 321; v1 line 181; v2 line 300). -/
def clampHigh (d : ℚ) : ℚ := if 20 < d then 15 else d

/-- The two sequential clamp assignments of `conferenceMetrics`
(`analyze_conference_room_utilization`, lines 320-321). -/
def clampHours (d : ℚ) : ℚ := clampHigh (clampLow d)

/-- The two sequential clamp assignments of the v1 script (lines 180-181). -/
def clampHoursV1 (d : ℚ) : ℚ := clampHigh (clampLowV1 d)

/-- Embeds the `ghost = df_2025['#Attendees'] == 0` count (line 329). -/
def ghostCount (bs : List Booking) : Nat :=
  bs.countP fun b => b.attendees == 0

/-- v2's exclusion variant (v2 lines 307-308):
`(df['#Attendees'] == 0) & (df['Attendance Type'] != label)` count, with
`label = 'All Hands'` at the call site. -/
def ghostCountExcluding (bs : List Booking) (label : String) : Nat :=
  bs.countP fun b => b.attendees == 0 && b.attendanceType != label

/-- Claim C1: the four utilization tier masks used by
`analyze_occupancy_patterns` cover every non-negative total-swipe count and
no count satisfies two of them: the tiers partition ℕ. -/
theorem tiers_partition (t : Nat) :
    (veryLowUtil t ∨ lowUtil t ∨ mediumUtil t ∨ highUtil t) ∧
      ¬(veryLowUtil t ∧ lowUtil t) ∧ ¬(veryLowUtil t ∧ mediumUtil t) ∧
      ¬(veryLowUtil t ∧ highUtil t) ∧ ¬(lowUtil t ∧ mediumUtil t) ∧
      ¬(lowUtil t ∧ highUtil t) ∧ ¬(mediumUtil t ∧ highUtil t) := by
  unfold veryLowUtil lowUtil mediumUtil highUtil
  omega

/-- Claim C2: for a booking whose times parse, the clamp step of
`conferenceMetrics` yields the sentinel 15 exactly when the parsed duration
is non-positive or exceeds 20 hours, and keeps the parsed duration
unchanged otherwise. -/
theorem clampHours_sentinel (d : ℚ) :
    clampHours d = if d ≤ 0 ∨ 20 < d then 15 else d := by
  unfold clampHours clampHigh clampLow
  split_ifs <;> first | rfl | (exfalso; tauto)

/-- Claim C8: after the clamp step of `conferenceMetrics`, the derived
duration of every parsed row lies in the half-open interval (0, 20]. -/
theorem clampHours_mem_Ioc (d : ℚ) :
    0 < clampHours d ∧ clampHours d ≤ 20 := by
  unfold clampHours clampHigh clampLow
  split_ifs <;> constructor <;> linarith

/-- The v1 variant of the clamp (`Hours < 0` instead of `Hours <= 0`)
only guarantees the closed interval [0, 20]: a zero duration survives it. -/
theorem clampHoursV1_mem_Icc (d : ℚ) :
    0 ≤ clampHoursV1 d ∧ clampHoursV1 d ≤ 20 := by
  unfold clampHoursV1 clampHigh clampLowV1
  split_ifs <;> constructor <;> linarith

/-- A zero parsed duration is kept (not replaced by the sentinel) by the v1
clamp. -/
theorem clampHoursV1_zero : clampHoursV1 0 = 0 := by
  unfold clampHoursV1 clampHigh clampLowV1
  norm_num

/-- Claim C6: for the same booking set, the ghost-booking count with a
named booking-type excluded is at most the ghost-booking count without the
exclusion. -/
theorem ghostCountExcluding_le_ghostCount (bs : List Booking) (label : String) :
    ghostCountExcluding bs label ≤ ghostCount bs := by
  unfold ghostCountExcluding ghostCount
  exact List.countP_mono_left fun b _ h => by
    simp only [Bool.and_eq_true] at h
    exact h.1

/-- The C4 scenario input: a badge table of 100 employees, each with 10
swipes in every month, so every monthly swipe total is 1000. -/
def badge100 : List OccupancyRecord :=
  List.replicate 100 { floor := 1, swipes := fun _ => 10 }

/-- Every monthly total of the C4 scenario table is 1000. -/
theorem monthlySwipes_badge100 (m : Fin 9) : monthlySwipes badge100 m = 1000 := by
  simp [monthlySwipes, badge100, List.map_replicate, List.sum_replicate]

/-- Counterexample to claim C4: on the scenario table (monthly totals all
1000, 100 employees, 20 working days) `analyze_occupancy_patterns` computes
an average of 10 days per employee and a 50% attendance rate, not the
claimed 0.5 days and 2.5%. -/
theorem avgDays_badge100_ne_half :
    avgDaysPerMonth badge100 0 ≠ 1 / 2 ∧ attendanceRatePerMonth badge100 0 ≠ 5 / 2 := by
  have h : monthlySwipes badge100 0 = 1000 := monthlySwipes_badge100 0
  have hlen : badge100.length = 100 := by simp [badge100]
  constructor <;>
    simp [avgDaysPerMonth, attendanceRatePerMonth, h, hlen, workingDaysPerMonth] <;>
    norm_num

/-- Claim C4 (amended): on the scenario table with monthly swipe totals all
1000, 100 employees and 20 working days, `analyze_occupancy_patterns`
yields `avgDays = 10` and `attendanceRate = 50%` for every month. -/
theorem avgDays_badge100 (m : Fin 9) :
    avgDaysPerMonth badge100 m = 10 ∧ attendanceRatePerMonth badge100 m = 50 := by
  have h : monthlySwipes badge100 m = 1000 := monthlySwipes_badge100 m
  have hlen : badge100.length = 100 := by simp [badge100]
  constructor <;>
    simp [avgDaysPerMonth, attendanceRatePerMonth, h, hlen, workingDaysPerMonth] <;>
    norm_num

/-- Counting with two pointwise-exclusive masks that together cover a third
mask splits the third mask's count. -/
theorem countP_add_countP {α : Type} (l : List α) (p q s : α → Bool)
    (h : ∀ x, (p x).toNat + (q x).toNat = (s x).toNat) :
    l.countP p + l.countP q = l.countP s := by
  induction l with
  | nil => simp
  | cons a t ih =>
    have ha := h a
    simp only [List.countP_cons]
    cases hp : p a <;> cases hq : q a <;> cases hs : s a <;>
      simp [hp, hq, hs] at ha ⊢ <;> omega

/-- Claim C9: the remote-work headcount of `advanced_metrics_analysis`
(`< 20` plus `[20, 90)`) and the low-utilizer count of
`analyze_occupancy_patterns` (`< 30` plus `[30, 90)`) agree on every badge
table, both counting the employees whose 9-month total is below 90. -/
theorem remoteEmployees_eq_lowUtilizers (b : List OccupancyRecord) :
    remoteEmployees b = lowUtilizers b ∧
      lowUtilizers b = b.countP fun r => decide (totalSwipes r < 90) := by
  unfold remoteEmployees lowUtilizers veryLowUtil lowUtil
  have h20 := countP_add_countP b (fun r => decide (totalSwipes r < 20))
    (fun r => decide (20 ≤ totalSwipes r ∧ totalSwipes r < 90))
    (fun r => decide (totalSwipes r < 90))
    (by intro x; by_cases h1 : totalSwipes x < 20 <;>
          by_cases h2 : totalSwipes x < 90 <;> simp [h1, h2] <;> omega)
  have h30 := countP_add_countP b (fun r => decide (totalSwipes r < 30))
    (fun r => decide (30 ≤ totalSwipes r ∧ totalSwipes r < 90))
    (fun r => decide (totalSwipes r < 90))
    (by intro x; by_cases h1 : totalSwipes x < 30 <;>
          by_cases h2 : totalSwipes x < 90 <;> simp [h1, h2] <;> omega)
  exact ⟨h20.trans h30.symm, h30⟩

/-- A list of naturals sums to zero exactly when every member is zero. -/
theorem natSum_eq_zero (l : List Nat) : l.sum = 0 ↔ ∀ x ∈ l, x = 0 := by
  induction l with
  | nil => simp
  | cons a t ih => simp [Nat.add_eq_zero, ih]

/-- Embeds `floor_occupancy.sum()`: the grand 9-month swipe total over all
employees (the divisor of the per-floor share, line 107). -/
def grandTotal (b : List OccupancyRecord) : Nat :=
  (b.map totalSwipes).sum

/-- One floor's 9-month swipe total (`groupby('Floor')` row, line 101). -/
def floorTotal (b : List OccupancyRecord) (f : Nat) : Nat :=
  ((b.filter fun r => r.floor == f).map totalSwipes).sum

/-- Embeds `analyze_occupancy_patterns` with its two unguarded divisions made
explicit: the per-employee monthly average divides by `len(badge_data)`
(line 80) and the per-floor share divides by the grand swipe total
(line 107); neither has an emptiness or zero check in the source, so the
embedding returns `none` exactly when one of the divisors is zero. -/
def occupancyMetricsOpt (b : List OccupancyRecord) :
    Option (List ℚ × List (Nat × ℚ)) :=
  if b.length = 0 then none
  else if grandTotal b = 0 then none
  else some
    ((List.finRange 9).map fun m => (monthlySwipes b m : ℚ) / (b.length : ℚ),
     ((b.map OccupancyRecord.floor).dedup).map fun f =>
       (f, (floorTotal b f : ℚ) / (grandTotal b : ℚ) * 100))

/-- The grand swipe total vanishes exactly when every swipe count of every
employee is zero. -/
theorem grandTotal_eq_zero (b : List OccupancyRecord) :
    grandTotal b = 0 ↔ ∀ r ∈ b, ∀ m : Fin 9, r.swipes m = 0 := by
  unfold grandTotal
  rw [natSum_eq_zero]
  constructor
  · intro h r hr m
    have := h (totalSwipes r) (List.mem_map_of_mem totalSwipes hr)
    unfold totalSwipes at this
    exact (Finset.sum_eq_zero_iff.mp this) m (Finset.mem_univ m)
  · intro h x hx
    rcases List.mem_map.mp hx with ⟨r, hr, rfl⟩
    unfold totalSwipes
    exact Finset.sum_eq_zero fun m _ => h r hr m

/-- Claim C10: the division branches of `analyze_occupancy_patterns` are
all defined exactly when the badge table is non-empty and holds at least
one positive swipe count; in particular, under that precondition both
division-by-zero branches are unreachable. -/
theorem occupancyMetricsOpt_isSome_iff (b : List OccupancyRecord) :
    (occupancyMetricsOpt b).isSome ↔
      b ≠ [] ∧ ∃ r ∈ b, ∃ m : Fin 9, 0 < r.swipes m := by
  unfold occupancyMetricsOpt
  by_cases h1 : b.length = 0
  · have hb : b = [] := List.length_eq_zero.mp h1
    simp [hb]
  · have hb : b ≠ [] := fun h => h1 (by simp [h])
    by_cases h2 : grandTotal b = 0
    · have hz := (grandTotal_eq_zero b).mp h2
      simp only [h1, if_false, h2, if_true, Option.isSome_none]
      constructor
      · intro h; exact absurd h (by simp)
      · rintro ⟨-, r, hr, m, hm⟩
        exact absurd (hz r hr m) (Nat.pos_iff_ne_zero.mp hm)
    · simp only [h1, if_false, h2, Option.isSome_some, true_iff]
      refine ⟨hb, ?_⟩
      by_contra hcon
      push_neg at hcon
      exact h2 ((grandTotal_eq_zero b).mpr fun r hr m =>
        Nat.eq_zero_of_not_pos (by exact fun hpos => absurd hpos (by simpa using hcon r hr m)))

/-- Embeds `large_rooms` of `advanced_metrics_analysis` (line 452). -/
def largeRooms : List String := ["Auditorium A", "Auditorium B", "Auditorium C"]

/-- Embeds `medium_rooms` of `advanced_metrics_analysis` (line 453). -/
def mediumRooms : List String :=
  ["Room 128", "Room 129", "Room 130", "Room 131", "Room 132", "Room 133", "Room 135"]

/-- The metrics printed per room category by the cost-benefit block
(lines 457-465).  `avgAttendees` models
`room_data[room_data['#Attendees'] > 0]['#Attendees'].mean()`; pandas
returns `NaN` for the mean of an empty selection, modelled as `none`. -/
structure RoomMetrics where
  totalBookings : Nat
  avgAttendees : Option ℚ
  ghostPct : ℚ
deriving DecidableEq

/-- Embeds `room_data = df_2025[df_2025['Room'].isin(room_list)]` (line 456). -/
def roomData (bs : List Booking) (roomList : List String) : List Booking :=
  bs.filter fun b => roomList.contains b.room

/-- Embeds `room_data[room_data['#Attendees'] > 0]` (line 458). -/
def posAttendees (bs : List Booking) (roomList : List String) : List Booking :=
  (roomData bs roomList).filter fun b => decide (0 < b.attendees)

/-- The room cost-benefit computation for one category (lines 455-465):
bookings are restricted to the category's room list; when the restriction
is empty (`if len(room_data) > 0` fails) the category's metrics are
skipped, otherwise they are emitted — including a `NaN` average when no
booking of the category has positive attendees. -/
def roomCostBenefit (bs : List Booking) (roomList : List String) :
    Option RoomMetrics :=
  if (roomData bs roomList).length = 0 then none
  else
    some
      { totalBookings := (roomData bs roomList).length
        avgAttendees :=
          if (posAttendees bs roomList).length = 0 then none
          else some (((posAttendees bs roomList).map fun b => (b.attendees : ℚ)).sum /
            ((posAttendees bs roomList).length : ℚ))
        ghostPct :=
          (((roomData bs roomList).countP fun b => b.attendees == 0 : ℕ) : ℚ) /
            ((roomData bs roomList).length : ℚ) * 100 }

/-- A reachable booking: a single category booking with zero recorded
attendees (a ghost booking in a large room). -/
def ghostOnlyBooking : Booking :=
  { room := "Auditorium A", year := 2025, attendees := 0,
    attendanceType := "Team Meeting", hours := 1 }

/-- Counterexample to claim C5: on a booking set whose large-room category
holds exactly one zero-attendee booking, the category's metrics are emitted
(not skipped) although the average-attendance divisor's group — the
category bookings with positive attendees — has zero count: the average is
the undefined marker `NaN` (`none`), so the skip-on-zero-count policy does
not extend to that divisor. -/
theorem roomCostBenefit_mean_unguarded :
    posAttendees [ghostOnlyBooking] largeRooms = [] ∧
      roomCostBenefit [ghostOnlyBooking] largeRooms ≠ none ∧
      (roomCostBenefit [ghostOnlyBooking] largeRooms).map
        (fun m => m.avgAttendees) = some none := by
  refine ⟨?_, ?_, ?_⟩ <;>
    simp [roomCostBenefit, posAttendees, roomData, largeRooms, ghostOnlyBooking]

/-- Claim C5 (amended): the guard of the room cost-benefit computation
covers the category booking count — a category with no bookings is skipped
and no fault is propagated — but the average-attendance divisor is not
separately guarded: whenever a non-empty category has no positive-attendee
bookings, its metrics are still emitted with the average attendance equal
to the undefined marker (`NaN`) instead of being skipped. -/
theorem roomCostBenefit_guard (bs : List Booking) (roomList : List String) :
    (roomCostBenefit bs roomList = none ↔ roomData bs roomList = []) ∧
      ((roomCostBenefit bs roomList).map (fun m => m.avgAttendees) = some none ↔
        roomData bs roomList ≠ [] ∧ posAttendees bs roomList = []) := by
  unfold roomCostBenefit
  constructor
  · split
    next h => simp [List.length_eq_zero.mp h]
    next h =>
      have he : roomData bs roomList ≠ [] := by
        intro hee; rw [hee] at h; simp at h
      simp [he]
  · split
    next h => simp [List.length_eq_zero.mp h]
    next h =>
      have he : roomData bs roomList ≠ [] := by
        intro hee; rw [hee] at h; simp at h
      simp only [Option.map_some', Option.some.injEq]
      split
      next h2 => simp [List.length_eq_zero.mp h2, he]
      next h2 =>
        have hpe : posAttendees bs roomList ≠ [] := by
          intro hee; rw [hee] at h2; simp at h2
        simp [he, hpe]

/-- Arithmetic mean of a numeric sequence (the `mean` of the two series
handed to `stats.pearsonr`). -/
noncomputable def listMean (xs : List ℝ) : ℝ := xs.sum / (xs.length : ℝ)

/-- A sequence with its mean subtracted from every entry. -/
noncomputable def centered (xs : List ℝ) : List ℝ :=
  xs.map fun x => x - listMean xs

/-- Elementwise product sum of two sequences. -/
noncomputable def prodSum (xs ys : List ℝ) : ℝ :=
  ((xs.zip ys).map fun p => p.1 * p.2).sum

/-- Covariance sum `Σ (x - x̄)(y - ȳ)`, the numerator of the Pearson
coefficient. -/
noncomputable def covSum (xs ys : List ℝ) : ℝ :=
  prodSum (centered xs) (centered ys)

/-- Variance sum `Σ (x - x̄)²`. -/
noncomputable def varSum (xs : List ℝ) : ℝ := covSum xs xs

open scoped Classical in
/-- Modelled from the spec: `correlate_occupancy_with_energy` calls the
external `scipy.stats.pearsonr` (lines 248-251), whose computation is not
part of this repository; per the spec, `correlate` returns the Pearson
coefficient `Σ(x-x̄)(y-ȳ) / (√Σ(x-x̄)² · √Σ(y-ȳ)²)` and fails (returns the
undefined marker `NaN`, modelled as `none`) when either sequence has zero
variance. -/
noncomputable def pearson (xs ys : List ℝ) : Option ℝ :=
  if varSum xs = 0 ∨ varSum ys = 0 then none
  else some (covSum xs ys /
    (Real.sqrt (varSum xs) * Real.sqrt (varSum ys)))

/-- The product sum of a sequence with itself is its sum of squares. -/
theorem prodSum_self (l : List ℝ) :
    prodSum l l = (l.map fun x => x * x).sum := by
  induction l with
  | nil => simp [prodSum]
  | cons a t ih =>
    simp only [prodSum, List.zip_cons_cons, List.map_cons, List.sum_cons] at ih ⊢
    rw [ih]

/-- The variance sum is a sum of squares of the centered sequence. -/
theorem varSum_eq_sq_sum (xs : List ℝ) :
    varSum xs = ((centered xs).map fun x => x * x).sum := by
  unfold varSum covSum
  exact prodSum_self _

/-- Variance sums are non-negative. -/
theorem varSum_nonneg (xs : List ℝ) : 0 ≤ varSum xs := by
  rw [varSum_eq_sq_sum]
  apply List.sum_nonneg
  intro x hx
  rcases List.mem_map.mp hx with ⟨y, -, rfl⟩
  exact mul_self_nonneg y

/-- Cauchy-Schwarz inequality for a list of pairs, squared form. -/
theorem pairs_cauchy_schwarz (l : List (ℝ × ℝ)) :
    ((l.map fun p => p.1 * p.2).sum) ^ 2 ≤
      ((l.map fun p => p.1 * p.1).sum) * ((l.map fun p => p.2 * p.2).sum) := by
  induction l with
  | nil => simp
  | cons p t ih =>
    obtain ⟨a, b⟩ := p
    simp only [List.map_cons, List.sum_cons]
    set S := (t.map fun p => p.1 * p.2).sum with hS
    set A := (t.map fun p => p.1 * p.1).sum with hA
    set B := (t.map fun p => p.2 * p.2).sum with hB
    have hA0 : 0 ≤ A := by
      rw [hA]; apply List.sum_nonneg; intro x hx
      rcases List.mem_map.mp hx with ⟨q, -, rfl⟩; exact mul_self_nonneg _
    have hB0 : 0 ≤ B := by
      rw [hB]; apply List.sum_nonneg; intro x hx
      rcases List.mem_map.mp hx with ⟨q, -, rfl⟩; exact mul_self_nonneg _
    rcases eq_or_lt_of_le hB0 with hB0' | hBpos
    · have hS0 : S = 0 := by nlinarith [sq_nonneg S]
      rw [hS0, ← hB0']
      nlinarith [mul_nonneg hA0 (mul_self_nonneg b)]
    · have key : B * ((a * a + A) * (b * b + B) - (a * b + S) ^ 2)
          = (a * B - b * S) ^ 2 + (b * b + B) * (A * B - S ^ 2) := by ring
      nlinarith [key, sq_nonneg (a * B - b * S),
        mul_nonneg (by nlinarith [mul_self_nonneg b] : (0:ℝ) ≤ b * b + B)
          (sub_nonneg.mpr ih), hBpos]

/-- For equal-length sequences, the first-component squares of the zip sum
to the squares of the first sequence. -/
theorem zip_fst_sq (xs ys : List ℝ) (h : xs.length = ys.length) :
    ((xs.zip ys).map fun p => p.1 * p.1).sum = (xs.map fun x => x * x).sum := by
  induction xs generalizing ys with
  | nil => simp
  | cons a t ih =>
    cases ys with
    | nil => simp at h
    | cons b u =>
      simp only [List.length_cons, Nat.succ.injEq] at h
      simp only [List.zip_cons_cons, List.map_cons, List.sum_cons]
      rw [ih u h]

/-- For equal-length sequences, the second-component squares of the zip sum
to the squares of the second sequence. -/
theorem zip_snd_sq (xs ys : List ℝ) (h : xs.length = ys.length) :
    ((xs.zip ys).map fun p => p.2 * p.2).sum = (ys.map fun x => x * x).sum := by
  induction xs generalizing ys with
  | nil => cases ys with
    | nil => simp
    | cons b u => simp at h
  | cons a t ih =>
    cases ys with
    | nil => simp at h
    | cons b u =>
      simp only [List.length_cons, Nat.succ.injEq] at h
      simp only [List.zip_cons_cons, List.map_cons, List.sum_cons]
      rw [ih u h]

/-- Cauchy-Schwarz for the covariance and variance sums of two equal-length
sequences. -/
theorem covSum_sq_le (xs ys : List ℝ) (hlen : xs.length = ys.length) :
    (covSum xs ys) ^ 2 ≤ varSum xs * varSum ys := by
  have hclen : (centered xs).length = (centered ys).length := by
    simp [centered, hlen]
  have h1 := pairs_cauchy_schwarz ((centered xs).zip (centered ys))
  rw [zip_fst_sq _ _ hclen, zip_snd_sq _ _ hclen] at h1
  rw [varSum_eq_sq_sum, varSum_eq_sq_sum]
  exact h1

/-- Claim C3: for two equal-length sequences, when neither has zero
variance `correlate` yields a defined Pearson coefficient lying in [-1, 1];
when either sequence is constant (zero variance) it yields the undefined
marker, neither crashing nor coercing to zero. -/
theorem pearson_bounded_or_undefined (xs ys : List ℝ)
    (hlen : xs.length = ys.length) :
    ((varSum xs ≠ 0 ∧ varSum ys ≠ 0) →
        ∃ r, pearson xs ys = some r ∧ -1 ≤ r ∧ r ≤ 1) ∧
      ((varSum xs = 0 ∨ varSum ys = 0) → pearson xs ys = none) := by
  constructor
  · rintro ⟨hx, hy⟩
    have hxpos : 0 < varSum xs := lt_of_le_of_ne (varSum_nonneg xs) (Ne.symm hx)
    have hypos : 0 < varSum ys := lt_of_le_of_ne (varSum_nonneg ys) (Ne.symm hy)
    have hcs := covSum_sq_le xs ys hlen
    have hDpos : 0 < Real.sqrt (varSum xs) * Real.sqrt (varSum ys) :=
      mul_pos (Real.sqrt_pos.mpr hxpos) (Real.sqrt_pos.mpr hypos)
    have habs : |covSum xs ys| ≤ Real.sqrt (varSum xs) * Real.sqrt (varSum ys) := by
      rw [← Real.sqrt_sq_eq_abs, ← Real.sqrt_mul hxpos.le]
      exact Real.sqrt_le_sqrt hcs
    refine ⟨covSum xs ys / (Real.sqrt (varSum xs) * Real.sqrt (varSum ys)),
      ?_, ?_, ?_⟩
    · unfold pearson
      rw [if_neg (not_or.mpr ⟨hx, hy⟩)]
    · rw [le_div_iff₀ hDpos]
      linarith [(abs_le.mp habs).1]
    · rw [div_le_one hDpos]
      exact le_trans (le_abs_self _) habs
  · intro h
    unfold pearson
    rw [if_pos h]

/-- The variance sum of the concrete series [10, 20] is 50. -/
theorem varSum_ten_twenty : varSum [(10:ℝ), 20] = 50 := by
  simp [varSum, covSum, centered, prodSum, listMean]
  norm_num

/-- Witness for claim C3 at the spec's end-to-end scenario series
`[10, 20]` against itself: both variances are non-zero and the coefficient
is defined and bounded. -/
theorem pearson_bounded_witness :
    ([(10:ℝ), 20].length = [(10:ℝ), 20].length) ∧
      (varSum [(10:ℝ), 20] ≠ 0 ∧ varSum [(10:ℝ), 20] ≠ 0) ∧
      ∃ r, pearson [(10:ℝ), 20] [(10:ℝ), 20] = some r ∧ -1 ≤ r ∧ r ≤ 1 := by
  have hv : varSum [(10:ℝ), 20] ≠ 0 := by rw [varSum_ten_twenty]; norm_num
  exact ⟨rfl, ⟨hv, hv⟩,
    (pearson_bounded_or_undefined [(10:ℝ), 20] [(10:ℝ), 20] rfl).1 ⟨hv, hv⟩⟩

/-- Rational mean, for the hardcoded monthly constant series. -/
def qMean (xs : List ℚ) : ℚ := xs.sum / (xs.length : ℚ)

/-- Hardcoded monthly electricity series (line 167/lines 244). -/
def electricityMonthly : List ℚ :=
  [463000, 413000, 485000, 474000, 461000, 477000, 516000, 491000, 470000]

/-- Hardcoded monthly gas series (line 168/line 245). -/
def gasMonthly : List ℚ :=
  [48000, 41000, 35000, 23000, 14000, 12000, 8000, 11000, 12000]

/-- Hardcoded monthly water series (line 169/line 246/line 491). -/
def waterMonthly : List ℚ :=
  [5978000, 5901000, 6083000, 9405000, 9434000, 9405000, 17143000, 17287000, 16696000]

/-- The `Building37Analyzer` instance state after `load_data`: the three
loaded tables (the static `building_info` constants are inlined in the
operations, as in the source). -/
structure AnalyzerState where
  badgeData : List OccupancyRecord
  energyData : List (ℚ × ℚ × ℚ)
  conferenceData : List Booking

/-- The result dict of `analyze_occupancy_patterns` (lines 130-136). -/
structure OccResults where
  monthlyTotals : Fin 9 → Nat
  avgDaysInOffice : ℚ
  attendanceRate : ℚ
  floorDistribution : List (Nat × Nat)
  lowUtilCount : Nat

/-- Embeds `analyze_occupancy_patterns` as a state transformer: it reads the badge
table and returns its metrics without touching any stored table. -/
def analyzeOccupancyPatterns (s : AnalyzerState) : AnalyzerState × OccResults :=
  (s,
   { monthlyTotals := fun m => monthlySwipes s.badgeData m
     avgDaysInOffice := qMean ((List.finRange 9).map fun m => avgDaysPerMonth s.badgeData m)
     attendanceRate :=
       qMean ((List.finRange 9).map fun m => avgDaysPerMonth s.badgeData m) /
         (workingDaysPerMonth : ℚ) * 100
     floorDistribution :=
       ((s.badgeData.map OccupancyRecord.floor).dedup).map fun f =>
         (f, floorTotal s.badgeData f)
     lowUtilCount := lowUtilizers s.badgeData })

/-- The result dict of `analyze_energy_consumption` (lines 215-227),
restricted to the scalar summary entries; all inputs are hardcoded
constants. -/
structure EnergyResults where
  surgeMultiplier : ℚ
  totalCo2Tons : ℚ

/-- Embeds `analyze_energy_consumption` as a state transformer: it reads only
hardcoded constants (lines 145-169) and stores nothing. -/
def analyzeEnergyConsumption (s : AnalyzerState) : AnalyzerState × EnergyResults :=
  (s,
   { surgeMultiplier :=
       qMean ((waterMonthly.drop 6).take 3) / qMean ((waterMonthly.drop 2).take 3)
     totalCo2Tons :=
       5666000 * (92/100) / 2000 + 273000 * (117/10) / 2000 +
         (129777000 / 1000) * (55/2) * (92/100) / 2000 })

/-- The result dict of `correlate_occupancy_with_energy` (lines 298-303). -/
structure CorrResults where
  corrElectricity : Option ℝ
  corrGas : Option ℝ
  corrWater : Option ℝ
  occupancyRate : ℚ

/-- Embeds `correlate_occupancy_with_energy` as a state transformer: it reads the
badge table and hardcoded constant series, storing nothing. -/
noncomputable def correlateOccupancyWithEnergy (s : AnalyzerState) :
    AnalyzerState × CorrResults :=
  (s,
   { corrElectricity :=
       pearson ((List.finRange 9).map fun m => (monthlySwipes s.badgeData m : ℝ))
         (electricityMonthly.map fun q => (q : ℝ))
     corrGas :=
       pearson ((List.finRange 9).map fun m => (monthlySwipes s.badgeData m : ℝ))
         (gasMonthly.map fun q => (q : ℝ))
     corrWater :=
       pearson ((List.finRange 9).map fun m => (monthlySwipes s.badgeData m : ℝ))
         (waterMonthly.map fun q => (q : ℝ))
     occupancyRate :=
       qMean ((List.finRange 9).map fun m => (monthlySwipes s.badgeData m : ℚ)) /
         (356 * 20) * 100 })

/-- The year-2025 working copy of the booking table with the clamped
duration column: `df_2025 = self.conference_data[... == 2025].copy()`
followed by the `Hours` derivation and the two clamp assignments
(lines 312-321).  The copy is derived; the stored table is untouched. -/
def df2025 (bs : List Booking) : List Booking :=
  (bs.filter fun b => b.year == 2025).map fun b => { b with hours := clampHours b.hours }

/-- The result dict of `analyze_conference_room_utilization`
(lines 343-348). -/
structure ConfResults where
  totalBookings : Nat
  ghostBookings : Nat
  ghostHours : ℚ
  wastedEnergyKwh : ℚ

/-- Embeds `analyze_conference_room_utilization` as a state transformer: all
derivation happens on the `df_2025` copy. -/
def analyzeConferenceRoomUtilization (s : AnalyzerState) :
    AnalyzerState × ConfResults :=
  (s,
   { totalBookings := (df2025 s.conferenceData).length
     ghostBookings := ghostCount (df2025 s.conferenceData)
     ghostHours :=
       (((df2025 s.conferenceData).filter fun b => b.attendees == 0).map
         Booking.hours).sum
     wastedEnergyKwh :=
       (((df2025 s.conferenceData).filter fun b => b.attendees == 0).map
         Booking.hours).sum * 5 })

/-- The result dict of `advanced_metrics_analysis` (lines 519-525), plus
the per-category cost-benefit metrics the block prints (lines 455-465). -/
structure AdvResults where
  euiCurrent : ℚ
  euiTarget : ℚ
  remoteCount : Nat
  spaceReductionSqft : Nat
  costPerSwipe : ℚ
  largeRoomMetrics : Option RoomMetrics
  mediumRoomMetrics : Option RoomMetrics

/-- Embeds `advanced_metrics_analysis` as a state transformer: it reads the badge
and conference tables (the latter through a fresh year-2025 restriction,
line 449) and hardcoded cost constants, storing nothing. -/
def advancedMetricsAnalysis (s : AnalyzerState) : AnalyzerState × AdvResults :=
  (s,
   { euiCurrent := 63/2
     euiTarget := 10
     remoteCount := remoteEmployees s.badgeData
     spaceReductionSqft := remoteEmployees s.badgeData * 120
     costPerSwipe :=
       (5666000 * (15/100) + 273000 * (12/10) + 129777000 * (1/100)) /
         ((grandTotal s.badgeData : ℚ) * (12/9))
     largeRoomMetrics :=
       roomCostBenefit (s.conferenceData.filter fun b => b.year == 2025) largeRooms
     mediumRoomMetrics :=
       roomCostBenefit (s.conferenceData.filter fun b => b.year == 2025) mediumRooms })

/-- Claim C7: none of the stored tables is mutated by any analysis
operation — every operation returns the analyzer state it was given, the
conference analyses deriving durations only on the `df_2025` copy. -/
theorem tables_not_mutated (s : AnalyzerState) :
    (analyzeOccupancyPatterns s).1 = s ∧
      (analyzeEnergyConsumption s).1 = s ∧
      (correlateOccupancyWithEnergy s).1 = s ∧
      (analyzeConferenceRoomUtilization s).1 = s ∧
      (advancedMetricsAnalysis s).1 = s :=
  ⟨rfl, rfl, rfl, rfl, rfl⟩

end Building37
